import Mathlib

/-!
Verification development for the OpenSoT QP backend (`QPOasesProblem`),
the `Constraint` classification predicates, and the `Aggregated` task
combinator.  Matrices and vectors are shallowly embedded with rational
entries; the external qpOASES library calls (`SQProblem::init`,
`SQProblem::hotstart`, `getPrimalSolution`, ...) are modelled as oracle
functions supplied to each backend operation, so that the backend's own
control flow and state updates are translated faithfully from
`src/src/solvers/QPOasesProblem.cpp` while the library's numeric
behaviour stays abstract.
-/

/-- Vectors (`Eigen::VectorXd`) as lists of rationals. -/
abbrev Vec := List ℚ

/-- Matrices (`Eigen::MatrixXd`): explicit row and column counts plus the
row-major entries.  The explicit counts mirror Eigen, where a 0-by-n
matrix still reports n columns. -/
structure Mat where
  r : Nat
  c : Nat
  entries : List (List ℚ)
deriving Repr, DecidableEq

/-- Abstract token for a `qpOASES::Options` value: its contents never
influence the backend's control flow, only its identity is tracked. -/
abbrev QPOptions := Nat

/-- Hessian-type hint (`qpOASES::HessianType` enum) as a plain number. -/
abbrev HessianTypeTag := Nat

/-- Abstract token for a `qpOASES::Bounds` / `qpOASES::Constraints`
active-set snapshot. -/
abbrev ActiveSet := Nat

/-- Model of the underlying `qpOASES::SQProblem` object: its construction
parameters (variable count, constraint count, Hessian type), the options
it was given, and an abstract internal solver state that every
`init`/`hotstart` call rewrites. -/
structure SQProblem where
  nV : Nat
  nC : Nat
  hessianType : HessianTypeTag
  opts : QPOptions
  istate : Nat
deriving Repr, DecidableEq

/-- The stored fields of `OpenSoT::solvers::QPOasesProblem`. -/
structure QPOasesProblem where
  problem : SQProblem
  bounds : ActiveSet
  constraintsAS : ActiveSet
  nWSR : Int
  epsRegularisation : ℚ
  H : Mat
  g : Vec
  A : Mat
  lA : Vec
  uA : Vec
  l : Vec
  u : Vec
  solution : Vec
  dual_solution : Vec
  opt : QPOptions
deriving Repr, DecidableEq

/-- The data handed to a qpOASES solve call
(`H, g, A, l, u, lA, uA` plus the iteration budget `nWSR`). -/
structure QPData where
  H : Mat
  g : Vec
  A : Mat
  lA : Vec
  uA : Vec
  l : Vec
  u : Vec
  nWSR : Int
deriving Repr, DecidableEq

/-- The current solve data of a backend state. -/
def QPOasesProblem.data (s : QPOasesProblem) : QPData :=
  ⟨s.H, s.g, s.A, s.lA, s.uA, s.l, s.u, s.nWSR⟩

/-- the qpOASES infinity sentinel `qpOASES::INFTY = 1.0e20`. -/
def INFTY : ℚ := 100000000000000000000

/-- Clamp from below: `if (x < -INFTY) x = -INFTY` (applied to `_lA`, `_l`). -/
def clampL (x : ℚ) : ℚ := if x < -INFTY then -INFTY else x

/-- Clamp from above: `if (x > INFTY) x = INFTY` (applied to `_uA`, `_u`). -/
def clampU (x : ℚ) : ℚ := if INFTY < x then INFTY else x

/-- Apply `f` to the first `n` entries of a vector, leaving the rest
unchanged.  `QPOasesProblem::checkINFTY` runs its loops up to
`_lA.rows()` (resp. `_l.rows()`), so `_uA` (resp. `_u`) is only touched
at those indices. -/
def clampUpTo : Nat → (ℚ → ℚ) → Vec → Vec
  | _, _, [] => []
  | 0, _, v => v
  | n + 1, f, x :: xs => f x :: clampUpTo n f xs

/-- `QPOasesProblem::checkINFTY`: clamp `_lA` and `_l` entries from below
at `-INFTY`, and `_uA` and `_u` entries (at the indices visited by the
loops) from above at `INFTY`. -/
def checkINFTY (s : QPOasesProblem) : QPOasesProblem :=
  { s with
    lA := s.lA.map clampL
    uA := clampUpTo s.lA.length clampU s.uA
    l := s.l.map clampL
    u := clampUpTo s.l.length clampU s.u }

/-- Overwrite all seven data fields, as the assignment block
`_H = H; _g = g; _A = A; _lA = lA; _uA = uA; _l = l; _u = u;` at the top
of `initProblem` does. -/
def storeData (s : QPOasesProblem) (H : Mat) (g : Vec) (A : Mat)
    (lA uA l u : Vec) : QPOasesProblem :=
  { s with H := H, g := g, A := A, lA := lA, uA := uA, l := l, u := u }

/-- Model of `getPrimalSolution`/`getDualSolution` writing into a vector
that was first resized to length `n`: the result always has length `n`. -/
def fetch (n : Nat) (v : Vec) : Vec := (v ++ List.replicate n 0).take n

/-- Oracle for the external calls issued by one `initProblem` run: the
cold `SQProblem::init` call (a function of the passed data, returning
success and the solver's new internal state), and the subsequent
solution/active-set getters. -/
structure InitExt where
  init : QPData → Bool × Nat
  getPrimalOk : Bool
  primal : Vec
  dual : Vec
  actB : ActiveSet
  actC : ActiveSet

/-- Validation and cold-solve part of `QPOasesProblem::initProblem`,
operating on the already-stored (and clamped) fields. -/
def initProblemCore (s : QPOasesProblem) (ext : InitExt) :
    Bool × QPOasesProblem :=
  if s.l.length ≠ s.u.length then (false, s)
  else if s.lA.length ≠ s.A.r then (false, s)
  else if s.lA.length ≠ s.uA.length then (false, s)
  else
    let r := ext.init s.data
    let s1 : QPOasesProblem :=
      { s with problem := { s.problem with istate := r.2 } }
    if r.1 = false then (false, s1)
    else
      let s2 : QPOasesProblem :=
        { s1 with
          solution := fetch s1.problem.nV ext.primal
          dual_solution := fetch (s1.problem.nV + s1.problem.nC) ext.dual
          bounds := ext.actB
          constraintsAS := ext.actC }
      if ext.getPrimalOk then (true, s2) else (false, s2)

/-- `QPOasesProblem::initProblem`: store the arguments, sanitize with
`checkINFTY`, then validate sizes and run the cold solve. -/
def initProblem (s : QPOasesProblem) (ext : InitExt) (H : Mat) (g : Vec)
    (A : Mat) (lA uA l u : Vec) : Bool × QPOasesProblem :=
  initProblemCore (checkINFTY (storeData s H g A lA uA l u)) ext

/-- `QPOasesProblem::updateTask`: reject if the stored `_g`/`_H` row
counts ever disagree or the new `H` changes the column count; update
`_H,_g` in place when the row count is unchanged; otherwise store the
new task, rebuild the `SQProblem` from scratch (new sizes, previous
Hessian type, previously configured options `_opt`) and re-run
`initProblem` on the stored data. -/
def updateTask (s : QPOasesProblem) (ext : InitExt) (H : Mat) (g : Vec) :
    Bool × QPOasesProblem :=
  if s.g.length ≠ s.H.r then (false, s)
  else if s.H.c ≠ H.c then (false, s)
  else if s.H.r = H.r then (true, { s with H := H, g := g })
  else
    let s1 : QPOasesProblem := { s with H := H, g := g }
    let p : SQProblem := ⟨s1.H.c, s1.A.r, s1.problem.hessianType, s1.opt, 0⟩
    let s2 : QPOasesProblem := { s1 with problem := p }
    initProblem s2 ext s2.H s2.g s2.A s2.lA s2.uA s2.l s2.u

/-- `QPOasesProblem::updateConstraints`: reject on column mismatch with
the stored `_H` or on `lA`/`A`/`uA` row disagreement; update
`_A,_lA,_uA` in place when the row count of `A` is unchanged; otherwise
store them, rebuild the `SQProblem` from scratch (previous Hessian type
and options) and re-run `initProblem` on the stored data. -/
def updateConstraints (s : QPOasesProblem) (ext : InitExt) (A : Mat)
    (lA uA : Vec) : Bool × QPOasesProblem :=
  if A.c ≠ s.H.c then (false, s)
  else if lA.length ≠ A.r then (false, s)
  else if lA.length ≠ uA.length then (false, s)
  else if A.r = s.A.r then (true, { s with A := A, lA := lA, uA := uA })
  else
    let s1 : QPOasesProblem := { s with A := A, lA := lA, uA := uA }
    let p : SQProblem := ⟨s1.H.c, s1.A.r, s1.problem.hessianType, s1.opt, 0⟩
    let s2 : QPOasesProblem := { s1 with problem := p }
    initProblem s2 ext s2.H s2.g s2.A s2.lA s2.uA s2.l s2.u

/-- `QPOasesProblem::updateBounds`: reject unless both new sizes match
the stored box-bound sizes and each other; otherwise replace `_l,_u` in
place.  The underlying `SQProblem` is never touched. -/
def updateBounds (s : QPOasesProblem) (l u : Vec) : Bool × QPOasesProblem :=
  if l.length ≠ s.l.length then (false, s)
  else if u.length ≠ s.u.length then (false, s)
  else if l.length ≠ u.length then (false, s)
  else (true, { s with l := l, u := u })

/-- `QPOasesProblem::updateProblem`: `success && updateBounds && ...`
chain — bounds, then constraints, then task, short-circuiting on the
first failure. -/
def updateProblem (s : QPOasesProblem) (extC extT : InitExt) (H : Mat)
    (g : Vec) (A : Mat) (lA uA l u : Vec) : Bool × QPOasesProblem :=
  let r1 := updateBounds s l u
  if r1.1 then
    let r2 := updateConstraints r1.2 extC A lA uA
    if r2.1 then updateTask r2.2 extT H g
    else (false, r2.2)
  else (false, r1.2)

/-- Oracle for the external calls issued by one `solve()` run: the
`hotstart` call (a function of the solver's current internal state and
the passed data), the warm-started `init` call (a function of the data
and the primal/dual/active-set seeds it is handed), the solution and
active-set getters, and a nested `InitExt` for whichever cold
`initProblem` fallback runs (at most one per `solve`). -/
structure SolveExt where
  hotstart : Nat → QPData → Bool × Nat
  warmInit : QPData → Vec → Vec → ActiveSet → ActiveSet → Bool × Nat
  getPrimalOk : Bool
  primal : Vec
  dual : Vec
  actB : ActiveSet
  actC : ActiveSet
  fallback : InitExt

/-- First tier of `solve()`: `_problem->hotstart(...)` on the current
data, reusing the solver's internal active sets. -/
def hotAttempt (s : QPOasesProblem) (ext : SolveExt) :
    Bool × QPOasesProblem :=
  let r := ext.hotstart s.problem.istate s.data
  (r.1, { s with problem := { s.problem with istate := r.2 } })

/-- Second tier of `solve()`: `_problem->init(...)` seeded with the last
known primal solution, dual solution, and active bound/constraint sets. -/
def warmAttempt (s : QPOasesProblem) (ext : SolveExt) :
    Bool × QPOasesProblem :=
  let r := ext.warmInit s.data s.solution s.dual_solution s.bounds s.constraintsAS
  (r.1, { s with problem := { s.problem with istate := r.2 } })

/-- Third tier of `solve()`: a full cold `initProblem` on the currently
stored `H, g, A, lA, uA, l, u`. -/
def coldAttempt (s : QPOasesProblem) (ext : SolveExt) :
    Bool × QPOasesProblem :=
  initProblem s ext.fallback s.H s.g s.A s.lA s.uA s.l s.u

/-- Solution-retrieval phase of `solve()` after a successful hotstart or
warm-started init: resize and fetch primal/dual solutions and the
active sets, falling back to a cold `initProblem` if the getter fails. -/
def solveFetch (s : QPOasesProblem) (ext : SolveExt) :
    Bool × QPOasesProblem :=
  let s1 : QPOasesProblem :=
    { s with
      solution := fetch s.problem.nV ext.primal
      dual_solution := fetch (s.problem.nV + s.problem.nC) ext.dual
      bounds := ext.actB
      constraintsAS := ext.actC }
  if ext.getPrimalOk then (true, s1) else coldAttempt s1 ext

/-- Control flow of `QPOasesProblem::solve` after the initial
`checkINFTY`: hotstart, then warm-started init, then cold `initProblem`. -/
def solveCore (s : QPOasesProblem) (ext : SolveExt) :
    Bool × QPOasesProblem :=
  let h := hotAttempt s ext
  if h.1 then solveFetch h.2 ext
  else
    let w := warmAttempt h.2 ext
    if w.1 then solveFetch w.2 ext
    else coldAttempt w.2 ext

/-- `QPOasesProblem::solve`: sanitize the stored bounds and constraints,
then run the three-tier solve. -/
def solve (s : QPOasesProblem) (ext : SolveExt) : Bool × QPOasesProblem :=
  solveCore (checkINFTY s) ext

/-- The data fields of `OpenSoT::Constraint`
(`include/OpenSoT/Constraint.h`). -/
structure Constraint where
  constraint_id : String
  x_size : Nat
  lowerBound : Vec
  upperBound : Vec
  Aeq : Mat
  beq : Vec
  Aineq : Mat
  bLowerBound : Vec
  bUpperBound : Vec
deriving Repr, DecidableEq

/-- `Constraint::isEqualityConstraint`: `_Aeq.rows() > 0`. -/
def Constraint.isEqualityConstraint (c : Constraint) : Bool :=
  decide (0 < c.Aeq.r)

/-- `Constraint::isInequalityConstraint`: `_Aineq.rows() > 0`. -/
def Constraint.isInequalityConstraint (c : Constraint) : Bool :=
  decide (0 < c.Aineq.r)

/-- `Constraint::isUnilateralConstraint`:
`isInequalityConstraint() && (_bLowerBound.size() == 0 || _bUpperBound.size() == 0)`. -/
def Constraint.isUnilateralConstraint (c : Constraint) : Bool :=
  c.isInequalityConstraint &&
    (decide (c.bLowerBound.length = 0) || decide (c.bUpperBound.length = 0))

/-- `Constraint::isBilateralConstraint`:
`isInequalityConstraint() && !isUnilateralConstraint()`. -/
def Constraint.isBilateralConstraint (c : Constraint) : Bool :=
  c.isInequalityConstraint && !c.isUnilateralConstraint

/-- `Constraint::hasBounds`:
`_upperBound.size() > 0 || _lowerBound.size() > 0`. -/
def Constraint.hasBounds (c : Constraint) : Bool :=
  decide (0 < c.upperBound.length) || decide (0 < c.lowerBound.length)

/-- `Constraint::isConstraint`:
`isEqualityConstraint() || isInequalityConstraint()`. -/
def Constraint.isConstraint (c : Constraint) : Bool :=
  c.isEqualityConstraint || c.isInequalityConstraint

/-- `Constraint::isBound`: `hasBounds() && !isConstraint()`. -/
def Constraint.isBound (c : Constraint) : Bool :=
  c.hasBounds && !c.isConstraint

/-- Modelled from the spec: the `Aggregated` task combinator.  Only a
declaration of `wb_sot::tasks::Aggregated` is present under `src/`
(`include/wb_sot/tasks/Aggregated.h`); its implementation (the
`update`/`getConstraints` bodies exercised by
`tests/tasks/TestAggregated.cpp`) is missing, so the sub-task record is
modelled from spec sections 3 and 4.3: each sub-task carries `A`, `b`, a
scalar `lambda` scaling its residual, and a list of attached Constraint
references.  Shared Constraint instances are represented by stable
integer handles, so that the combinator's deduplication compares
reference identity, never structural equality. -/
structure SubTask where
  task_id : String
  x_size : Nat
  A : Mat
  b : Vec
  lambda : ℚ
  ownConstraints : List Nat
deriving Repr, DecidableEq

/-- Vertical stacking of two matrices (`yarp::math::pile` /
`QPOasesProblem::pile`): rows append, column count of the upper block. -/
def vstack (A B : Mat) : Mat := ⟨A.r + B.r, A.c, A.entries ++ B.entries⟩

/-- Modelled from the spec: append constraint handles to an accumulated
list, skipping any handle whose identity already appears (spec 4.3 step
3: union with pointer/identity-based deduplication, insertion order
preserved). -/
def dedupAppend (acc : List Nat) (xs : List Nat) : List Nat :=
  xs.foldl (fun a c => if c ∈ a then a else a ++ [c]) acc

/-- Modelled from the spec: an `Aggregated` task — an ordered list of
sub-task references, the shared `x_size`, and its own directly attached
constraints. -/
structure Aggregated where
  tasks : List SubTask
  x_size : Nat
  own : List Nat
deriving Repr, DecidableEq

/-- Modelled from the spec: the composite `A` — each sub-task's `A`
stacked vertically in list order (spec 4.3 step 2), starting from a
zero-row matrix over `x_size` columns. -/
def Aggregated.getA (ag : Aggregated) : Mat :=
  ag.tasks.foldl (fun M t => vstack M t.A) ⟨0, ag.x_size, []⟩

/-- Modelled from the spec: the composite `b` — each sub-task's
effective residual `lambda_i * b_i` concatenated in list order
(spec 4.3 step 2). -/
def Aggregated.getb (ag : Aggregated) : Vec :=
  (ag.tasks.map (fun t => t.b.map (fun x => t.lambda * x))).flatten

/-- Modelled from the spec: the merged constraint list — own constraints
first (insertion order preserved), then each sub-task's own constraints
in sub-task order, skipping handles already present (spec 4.3 step 3). -/
def Aggregated.getConstraints (ag : Aggregated) : List Nat :=
  ag.tasks.foldl (fun acc t => dedupAppend acc t.ownConstraints) ag.own

/-- A concrete, size-consistent backend state (2 variables, 1 constraint
row) used by the witnesses. -/
def sampleState : QPOasesProblem :=
  { problem := ⟨2, 1, 0, 0, 7⟩
    bounds := 3
    constraintsAS := 4
    nWSR := 132
    epsRegularisation := 200
    H := ⟨2, 2, [[1, 0], [0, 1]]⟩
    g := [1, 1]
    A := ⟨1, 2, [[1, 1]]⟩
    lA := [0]
    uA := [5]
    l := [-1, -1]
    u := [1, 1]
    solution := [9, 9]
    dual_solution := [8, 8, 8]
    opt := 5 }

/-- A concrete oracle whose cold init succeeds. -/
def sampleInitExt : InitExt :=
  { init := fun _ => (true, 11)
    getPrimalOk := true
    primal := [1, 2]
    dual := [1, 2, 3]
    actB := 21
    actC := 22 }

/-- A concrete solve oracle whose hotstart and warm-started init both
fail, so the cold fallback runs. -/
def sampleSolveExt : SolveExt :=
  { hotstart := fun _ _ => (false, 1)
    warmInit := fun _ _ _ _ _ => (false, 2)
    getPrimalOk := true
    primal := [0, 0]
    dual := [0, 0, 0]
    actB := 31
    actC := 32
    fallback := sampleInitExt }

/-- A concrete sub-task with two-column `A`, used by the witnesses. -/
def sampleTask1 : SubTask :=
  ⟨"t1", 2, ⟨1, 2, [[1, 0]]⟩, [3], 1, [0, 1]⟩

/-- A second concrete sub-task sharing constraint handle 0 with
`sampleTask1`. -/
def sampleTask2 : SubTask :=
  ⟨"t2", 2, ⟨1, 2, [[0, 1]]⟩, [4], 2, [0, 2]⟩

/-- An inequality constraint with both `bLowerBound` and `bUpperBound`
empty. -/
def bothEmptyIneq : Constraint :=
  ⟨"both_empty", 2, [], [], ⟨0, 2, []⟩, [], ⟨1, 2, [[1, 0]]⟩, [], []⟩

/-- The fields of the backend state that `solve()` must not rewrite:
the task and constraint data proper, the configuration, and the
underlying problem object's shape, Hessian type and options. -/
def dataFrame (a b : QPOasesProblem) : Prop :=
  a.H = b.H ∧ a.g = b.g ∧ a.A = b.A ∧ a.lA = b.lA ∧ a.uA = b.uA ∧
  a.l = b.l ∧ a.u = b.u ∧ a.nWSR = b.nWSR ∧
  a.epsRegularisation = b.epsRegularisation ∧ a.opt = b.opt ∧
  a.problem.nV = b.problem.nV ∧ a.problem.nC = b.problem.nC ∧
  a.problem.hessianType = b.problem.hessianType ∧
  a.problem.opts = b.problem.opts

lemma clampL_clampL (x : ℚ) : clampL (clampL x) = clampL x := by
  unfold clampL; split_ifs with h1 h2 <;> simp_all

lemma clampU_clampU (x : ℚ) : clampU (clampU x) = clampU x := by
  unfold clampU; split_ifs with h1 h2 <;> simp_all

lemma neg_INFTY_le_clampL (x : ℚ) : -INFTY ≤ clampL x := by
  unfold clampL; split_ifs with h <;> [simp; linarith]

lemma clampU_le_INFTY (x : ℚ) : clampU x ≤ INFTY := by
  unfold clampU; split_ifs with h <;> [simp; linarith]

lemma map_clampL_idem (v : Vec) :
    (v.map clampL).map clampL = v.map clampL := by
  simp [List.map_map, Function.comp, clampL_clampL]

lemma clampUpTo_length (n : Nat) (f : ℚ → ℚ) (v : Vec) :
    (clampUpTo n f v).length = v.length := by
  induction v generalizing n with
  | nil => cases n <;> simp [clampUpTo]
  | cons x xs ih =>
    cases n with
    | zero => simp [clampUpTo]
    | succ m => simp [clampUpTo, ih]

lemma clampUpTo_clampU_idem (n : Nat) (v : Vec) :
    clampUpTo n clampU (clampUpTo n clampU v) = clampUpTo n clampU v := by
  induction v generalizing n with
  | nil => cases n <;> simp [clampUpTo]
  | cons x xs ih =>
    cases n with
    | zero => simp [clampUpTo]
    | succ m => simp [clampUpTo, ih, clampU_clampU]

lemma clampUpTo_full (f : ℚ → ℚ) (v : Vec) :
    clampUpTo v.length f v = v.map f := by
  induction v with
  | nil => simp [clampUpTo]
  | cons x xs ih => simp [clampUpTo, ih]

lemma mem_clampUpTo_clampU {n : Nat} {v : Vec} (hn : v.length ≤ n) :
    ∀ x ∈ clampUpTo n clampU v, x ≤ INFTY := by
  induction v generalizing n with
  | nil => cases n <;> simp [clampUpTo]
  | cons y ys ih =>
    cases n with
    | zero => simp at hn
    | succ m =>
      intro x hx
      simp only [clampUpTo, List.mem_cons] at hx
      rcases hx with h | h
      · exact h ▸ clampU_le_INFTY y
      · exact ih (Nat.le_of_succ_le_succ (by simpa using hn)) x h

lemma storeData_self (t : QPOasesProblem) :
    storeData t t.H t.g t.A t.lA t.uA t.l t.u = t := rfl

lemma checkINFTY_stable (t : QPOasesProblem)
    (h1 : t.lA.map clampL = t.lA)
    (h2 : clampUpTo t.lA.length clampU t.uA = t.uA)
    (h3 : t.l.map clampL = t.l)
    (h4 : clampUpTo t.l.length clampU t.u = t.u) :
    checkINFTY t = t := by
  unfold checkINFTY
  rw [h1, h2, h3, h4]

lemma initProblemCore_frame (s : QPOasesProblem) (ext : InitExt) :
    dataFrame (initProblemCore s ext).2 s := by
  unfold dataFrame
  simp only [initProblemCore]
  split_ifs <;> simp

lemma coldAttempt_frame (t : QPOasesProblem) (ext : SolveExt)
    (h1 : t.lA.map clampL = t.lA)
    (h2 : clampUpTo t.lA.length clampU t.uA = t.uA)
    (h3 : t.l.map clampL = t.l)
    (h4 : clampUpTo t.l.length clampU t.u = t.u) :
    dataFrame (coldAttempt t ext).2 t := by
  unfold coldAttempt initProblem
  rw [storeData_self, checkINFTY_stable t h1 h2 h3 h4]
  exact initProblemCore_frame t ext.fallback

lemma solveFetch_frame (t : QPOasesProblem) (ext : SolveExt)
    (h1 : t.lA.map clampL = t.lA)
    (h2 : clampUpTo t.lA.length clampU t.uA = t.uA)
    (h3 : t.l.map clampL = t.l)
    (h4 : clampUpTo t.l.length clampU t.u = t.u) :
    dataFrame (solveFetch t ext).2 t := by
  unfold solveFetch
  by_cases hg : ext.getPrimalOk = true
  · simp only [hg, if_true]
    exact ⟨rfl, rfl, rfl, rfl, rfl, rfl, rfl, rfl, rfl, rfl, rfl, rfl, rfl, rfl⟩
  · simp only [hg, if_false, Bool.false_eq_true]
    exact coldAttempt_frame _ ext h1 h2 h3 h4

lemma solveCore_frame (t : QPOasesProblem) (ext : SolveExt)
    (h1 : t.lA.map clampL = t.lA)
    (h2 : clampUpTo t.lA.length clampU t.uA = t.uA)
    (h3 : t.l.map clampL = t.l)
    (h4 : clampUpTo t.l.length clampU t.u = t.u) :
    dataFrame (solveCore t ext).2 t := by
  unfold solveCore
  by_cases hh : (hotAttempt t ext).1 = true
  · rw [if_pos hh]
    exact solveFetch_frame _ ext h1 h2 h3 h4
  · rw [if_neg hh]
    by_cases hw : (warmAttempt (hotAttempt t ext).2 ext).1 = true
    · rw [if_pos hw]
      exact solveFetch_frame _ ext h1 h2 h3 h4
    · rw [if_neg hw]
      exact coldAttempt_frame _ ext h1 h2 h3 h4

lemma initProblemCore_invalid (s : QPOasesProblem) (ext : InitExt)
    (hg : s.l.length ≠ s.u.length ∨ s.lA.length ≠ s.A.r ∨
      s.lA.length ≠ s.uA.length) :
    initProblemCore s ext = (false, s) := by
  unfold initProblemCore
  by_cases g1 : s.l.length ≠ s.u.length
  · rw [if_pos g1]
  · rw [if_neg g1]
    by_cases g2 : s.lA.length ≠ s.A.r
    · rw [if_pos g2]
    · rw [if_neg g2]
      have g3 : s.lA.length ≠ s.uA.length := by tauto
      rw [if_pos g3]

/-- Claim C2: `solve()` tries its three strategies in fixed order —
hotstart, then a warm-started init seeded from the last known
primal/dual solutions and active sets, then a full cold `initProblem`
on the currently stored data — succeeding as soon as an attempt
succeeds and failing only when all three fail.  The hypothesis reflects
that a qpOASES solution getter succeeds after a successful solve call. -/
theorem solve_three_tier_retry (s : QPOasesProblem) (ext : SolveExt)
    (hp : ext.getPrimalOk = true) :
    ((hotAttempt (checkINFTY s) ext).1 = true → (solve s ext).1 = true)
  ∧ ((hotAttempt (checkINFTY s) ext).1 = false →
      (warmAttempt (hotAttempt (checkINFTY s) ext).2 ext).1 = true →
        (solve s ext).1 = true)
  ∧ ((hotAttempt (checkINFTY s) ext).1 = false →
      (warmAttempt (hotAttempt (checkINFTY s) ext).2 ext).1 = false →
        solve s ext =
          coldAttempt (warmAttempt (hotAttempt (checkINFTY s) ext).2 ext).2
            ext)
  ∧ ((solve s ext).1 = false →
      ((hotAttempt (checkINFTY s) ext).1 = false ∧
       (warmAttempt (hotAttempt (checkINFTY s) ext).2 ext).1 = false ∧
       (coldAttempt (warmAttempt (hotAttempt (checkINFTY s) ext).2 ext).2
          ext).1 = false)) := by
  unfold solve solveCore
  cases hh : (hotAttempt (checkINFTY s) ext).1 <;>
    cases hw : (warmAttempt (hotAttempt (checkINFTY s) ext).2 ext).1 <;>
      simp [hh, hw, solveFetch, hp]

/-- Claim C2 (witness): with an oracle whose hotstart and warm init both
fail, `solve` is exactly the cold fallback. -/
theorem solve_three_tier_retry_witness :
    sampleSolveExt.getPrimalOk = true ∧
    (hotAttempt (checkINFTY sampleState) sampleSolveExt).1 = false ∧
    (warmAttempt (hotAttempt (checkINFTY sampleState) sampleSolveExt).2
      sampleSolveExt).1 = false ∧
    solve sampleState sampleSolveExt =
      coldAttempt
        (warmAttempt (hotAttempt (checkINFTY sampleState) sampleSolveExt).2
          sampleSolveExt).2 sampleSolveExt :=
  ⟨rfl, by decide, by decide,
   (solve_three_tier_retry sampleState sampleSolveExt rfl).2.2.1
     (by decide) (by decide)⟩

/-- Claim C3 (counterexample): `checkINFTY` does not bring every stored
entry into `[-INFTY, INFTY]` — a constraint lower bound above `+INFTY`
is left unchanged, because lower bounds are only clamped from below. -/
theorem checkINFTY_one_sided_cex :
    ¬ (∀ x ∈ (checkINFTY
        { sampleState with lA := [200000000000000000000], uA := [0] }).lA,
          -INFTY ≤ x ∧ x ≤ INFTY) := by
  decide

/-- Claim C3 (amended): `checkINFTY` clamps every `lA`/`l` entry below
`-INFTY` up to `-INFTY` and (under the stored-size invariants) every
`uA`/`u` entry above `+INFTY` down to `+INFTY` — so afterwards every
`lA`/`l` entry is at least `-INFTY` and every `uA`/`u` entry is at most
`+INFTY`, but entries of `lA`/`l` above `+INFTY` and entries of
`uA`/`u` below `-INFTY` are left unchanged — and this sanitization is
applied at the start of every `solve()` and to the stored data in every
`initProblem` before its solve. -/
theorem checkINFTY_spec (s : QPOasesProblem) (ext : SolveExt)
    (extI : InitExt) (H : Mat) (g : Vec) (A : Mat) (lA uA l u : Vec)
    (hA : s.lA.length = s.uA.length) (hB : s.l.length = s.u.length) :
    ((checkINFTY s).lA = s.lA.map clampL
   ∧ (checkINFTY s).uA = s.uA.map clampU
   ∧ (checkINFTY s).l = s.l.map clampL
   ∧ (checkINFTY s).u = s.u.map clampU)
  ∧ ((∀ x ∈ (checkINFTY s).lA, -INFTY ≤ x)
   ∧ (∀ x ∈ (checkINFTY s).uA, x ≤ INFTY)
   ∧ (∀ x ∈ (checkINFTY s).l, -INFTY ≤ x)
   ∧ (∀ x ∈ (checkINFTY s).u, x ≤ INFTY))
  ∧ solve s ext = solveCore (checkINFTY s) ext
  ∧ initProblem s extI H g A lA uA l u =
      initProblemCore (checkINFTY (storeData s H g A lA uA l u)) extI := by
  refine ⟨⟨rfl, ?_, rfl, ?_⟩, ⟨?_, ?_, ?_, ?_⟩, rfl, rfl⟩
  · show clampUpTo s.lA.length clampU s.uA = s.uA.map clampU
    rw [hA, clampUpTo_full]
  · show clampUpTo s.l.length clampU s.u = s.u.map clampU
    rw [hB, clampUpTo_full]
  · intro x hx
    simp only [checkINFTY, List.mem_map] at hx
    obtain ⟨y, _, hy⟩ := hx
    exact hy ▸ neg_INFTY_le_clampL y
  · exact mem_clampUpTo_clampU (le_of_eq hA.symm)
  · intro x hx
    simp only [checkINFTY, List.mem_map] at hx
    obtain ⟨y, _, hy⟩ := hx
    exact hy ▸ neg_INFTY_le_clampL y
  · exact mem_clampUpTo_clampU (le_of_eq hB.symm)

/-- Claim C3 (witness). -/
theorem checkINFTY_spec_witness :
    sampleState.lA.length = sampleState.uA.length ∧
    sampleState.l.length = sampleState.u.length ∧
    (checkINFTY sampleState).uA = sampleState.uA.map clampU ∧
    solve sampleState sampleSolveExt =
      solveCore (checkINFTY sampleState) sampleSolveExt :=
  ⟨by decide, by decide,
   (checkINFTY_spec sampleState sampleSolveExt sampleInitExt sampleState.H
      sampleState.g sampleState.A [0] [5] [0, 0] [1, 1]
      (by decide) (by decide)).1.2.1,
   (checkINFTY_spec sampleState sampleSolveExt sampleInitExt sampleState.H
      sampleState.g sampleState.A [0] [5] [0, 0] [1, 1]
      (by decide) (by decide)).2.2.1⟩

/-- Claim C10: every `solve()` path leaves the stored `H`, `g`, `A`
unchanged; the stored `lA, uA, l, u` change only by the one-shot
clamping of `checkINFTY`; and the configuration (`nWSR`,
`epsRegularisation`, options) and the problem object's shape and
Hessian type are untouched.  (Only the primal solution, dual solution,
active sets and the solver's internal state may otherwise change.) -/
theorem solve_frame_spec (s : QPOasesProblem) (ext : SolveExt) :
    (solve s ext).2.H = s.H ∧ (solve s ext).2.g = s.g
  ∧ (solve s ext).2.A = s.A
  ∧ (solve s ext).2.lA = s.lA.map clampL
  ∧ (solve s ext).2.uA = clampUpTo s.lA.length clampU s.uA
  ∧ (solve s ext).2.l = s.l.map clampL
  ∧ (solve s ext).2.u = clampUpTo s.l.length clampU s.u
  ∧ (solve s ext).2.nWSR = s.nWSR
  ∧ (solve s ext).2.epsRegularisation = s.epsRegularisation
  ∧ (solve s ext).2.opt = s.opt
  ∧ (solve s ext).2.problem.nV = s.problem.nV
  ∧ (solve s ext).2.problem.nC = s.problem.nC
  ∧ (solve s ext).2.problem.hessianType = s.problem.hessianType
  ∧ (solve s ext).2.problem.opts = s.problem.opts := by
  have h1 : (checkINFTY s).lA.map clampL = (checkINFTY s).lA :=
    map_clampL_idem s.lA
  have h2 : clampUpTo (checkINFTY s).lA.length clampU (checkINFTY s).uA =
      (checkINFTY s).uA := by
    have hlen : (checkINFTY s).lA.length = s.lA.length := by
      simp [checkINFTY]
    rw [hlen]
    exact clampUpTo_clampU_idem s.lA.length s.uA
  have h3 : (checkINFTY s).l.map clampL = (checkINFTY s).l :=
    map_clampL_idem s.l
  have h4 : clampUpTo (checkINFTY s).l.length clampU (checkINFTY s).u =
      (checkINFTY s).u := by
    have hlen : (checkINFTY s).l.length = s.l.length := by
      simp [checkINFTY]
    rw [hlen]
    exact clampUpTo_clampU_idem s.l.length s.u
  have hf := solveCore_frame (checkINFTY s) ext h1 h2 h3 h4
  unfold dataFrame at hf
  obtain ⟨f1, f2, f3, f4, f5, f6, f7, f8, f9, f10, f11, f12, f13, f14⟩ := hf
  exact ⟨f1, f2, f3, f4, f5, f6, f7, f8, f9, f10, f11, f12, f13, f14⟩

/-- Claim C1 (counterexample): calling `initProblem` with box bounds of
mismatched sizes fails validation, yet the stored `_l` has already been
overwritten with the new argument — the previously stored data vectors
are not retained. -/
theorem initProblem_validation_overwrites_cex :
    (initProblem sampleState sampleInitExt sampleState.H sampleState.g
        sampleState.A [0] [5] [1] [2, 3]).1 = false
  ∧ (initProblem sampleState sampleInitExt sampleState.H sampleState.g
        sampleState.A [0] [5] [1] [2, 3]).2.l ≠ sampleState.l := by
  decide

/-- Claim C1 (amended): if `initProblem` fails its size validation it
returns false without invoking the underlying solver — the problem
object, the stored solution, dual solution and active sets are
retained — but the stored `H, g, A, lA, uA, l, u` have already been
overwritten with the (clamped) new arguments before validation runs. -/
theorem initProblem_validation_fail_spec (s : QPOasesProblem)
    (ext : InitExt) (H : Mat) (g : Vec) (A : Mat) (lA uA l u : Vec)
    (hfail : l.length ≠ u.length ∨ lA.length ≠ A.r ∨
      lA.length ≠ uA.length) :
    initProblem s ext H g A lA uA l u =
      (false, checkINFTY (storeData s H g A lA uA l u))
  ∧ (checkINFTY (storeData s H g A lA uA l u)).problem = s.problem
  ∧ (checkINFTY (storeData s H g A lA uA l u)).solution = s.solution
  ∧ (checkINFTY (storeData s H g A lA uA l u)).dual_solution =
      s.dual_solution
  ∧ (checkINFTY (storeData s H g A lA uA l u)).bounds = s.bounds
  ∧ (checkINFTY (storeData s H g A lA uA l u)).constraintsAS =
      s.constraintsAS
  ∧ (checkINFTY (storeData s H g A lA uA l u)).H = H
  ∧ (checkINFTY (storeData s H g A lA uA l u)).g = g
  ∧ (checkINFTY (storeData s H g A lA uA l u)).A = A
  ∧ (checkINFTY (storeData s H g A lA uA l u)).l = l.map clampL
  ∧ (checkINFTY (storeData s H g A lA uA l u)).u =
      clampUpTo l.length clampU u
  ∧ (checkINFTY (storeData s H g A lA uA l u)).lA = lA.map clampL
  ∧ (checkINFTY (storeData s H g A lA uA l u)).uA =
      clampUpTo lA.length clampU uA := by
  refine ⟨?_, by simp [checkINFTY, storeData], by simp [checkINFTY, storeData],
    by simp [checkINFTY, storeData], by simp [checkINFTY, storeData],
    by simp [checkINFTY, storeData], by simp [checkINFTY, storeData],
    by simp [checkINFTY, storeData], by simp [checkINFTY, storeData],
    by simp [checkINFTY, storeData], by simp [checkINFTY, storeData],
    by simp [checkINFTY, storeData], by simp [checkINFTY, storeData]⟩
  unfold initProblem
  apply initProblemCore_invalid
  simpa [checkINFTY, storeData, clampUpTo_length] using hfail

/-- Claim C1 (witness): a concrete validation failure
(`l` of size 1, `u` of size 2). -/
theorem initProblem_validation_fail_spec_witness :
    ([1] : Vec).length ≠ ([2, 3] : Vec).length ∧
    initProblem sampleState sampleInitExt sampleState.H sampleState.g
        sampleState.A [0] [5] [1] [2, 3] =
      (false, checkINFTY (storeData sampleState sampleState.H sampleState.g
        sampleState.A [0] [5] [1] [2, 3])) :=
  ⟨by decide,
   (initProblem_validation_fail_spec sampleState sampleInitExt sampleState.H
      sampleState.g sampleState.A [0] [5] [1] [2, 3]
      (Or.inl (by decide))).1⟩

/-- Claim C4: `updateTask` fails whenever the new `H` changes the
column count; under the data-model invariant `_g.size() == _H.rows()`,
an unchanged row count gives an in-place `_H,_g` replacement that
succeeds and leaves the underlying solver object untouched, while a
changed row count stores the new task, rebuilds the `SQProblem` from
scratch at the new size with the previous Hessian type and the
previously configured options, and re-runs `initProblem` on the stored
data. -/
theorem updateTask_spec (s : QPOasesProblem) (ext : InitExt) (H : Mat)
    (g : Vec) :
    (H.c ≠ s.H.c → updateTask s ext H g = (false, s))
  ∧ (s.g.length = s.H.r → H.c = s.H.c → H.r = s.H.r →
      updateTask s ext H g = (true, { s with H := H, g := g }) ∧
      (updateTask s ext H g).2.problem = s.problem)
  ∧ (s.g.length = s.H.r → H.c = s.H.c → H.r ≠ s.H.r →
      updateTask s ext H g =
        initProblem
          { s with
            H := H
            g := g
            problem := ⟨H.c, s.A.r, s.problem.hessianType, s.opt, 0⟩ }
          ext H g s.A s.lA s.uA s.l s.u) := by
  refine ⟨?_, ?_, ?_⟩ <;> unfold updateTask
  · intro hc
    split_ifs with g1 g2 g3
    · rfl
    · rfl
    · exact absurd (not_not.mp g2).symm hc
    · exact absurd (not_not.mp g2).symm hc
  · intro h1 h2 h3
    split_ifs with g1 g2 g3
    · exact absurd h1 g1
    · exact absurd h2.symm g2
    · exact ⟨rfl, rfl⟩
    · exact absurd h3.symm g3
  · intro h1 h2 h3
    split_ifs with g1 g2 g3
    · exact absurd h1 g1
    · exact absurd h2.symm g2
    · exact absurd g3.symm h3
    · rfl

/-- Claim C4 (witness): in-place update on the sample state. -/
theorem updateTask_spec_witness :
    sampleState.g.length = sampleState.H.r ∧
    (⟨2, 2, [[3, 0], [0, 3]]⟩ : Mat).c = sampleState.H.c ∧
    (⟨2, 2, [[3, 0], [0, 3]]⟩ : Mat).r = sampleState.H.r ∧
    (updateTask sampleState sampleInitExt ⟨2, 2, [[3, 0], [0, 3]]⟩ [7, 7] =
      (true, { sampleState with H := ⟨2, 2, [[3, 0], [0, 3]]⟩, g := [7, 7] }) ∧
     (updateTask sampleState sampleInitExt
        ⟨2, 2, [[3, 0], [0, 3]]⟩ [7, 7]).2.problem = sampleState.problem) :=
  ⟨by decide, by decide, by decide,
   (updateTask_spec sampleState sampleInitExt
      ⟨2, 2, [[3, 0], [0, 3]]⟩ [7, 7]).2.1 (by decide) (by decide) (by decide)⟩

/-- Claim C7 (counterexample): an inequality constraint whose
`bLowerBound` and `bUpperBound` are both empty is nevertheless reported
unilateral by `Constraint::isUnilateralConstraint`, contradicting the
claim that exactly one empty side is required and that the both-empty
case is not unilateral. -/
theorem isUnilateral_both_empty_cex :
    bothEmptyIneq.isInequalityConstraint = true ∧
    bothEmptyIneq.bLowerBound.length = 0 ∧
    bothEmptyIneq.bUpperBound.length = 0 ∧
    bothEmptyIneq.isUnilateralConstraint = true := by
  decide

/-- Claim C7 (amended): `isUnilateralConstraint` returns true iff the
constraint is an inequality and at least one of
`bLowerBound`/`bUpperBound` is empty (so the both-empty case is
unilateral), and `isBilateralConstraint` returns true iff it is an
inequality and both are non-empty. -/
theorem unilateral_bilateral_spec (c : Constraint) :
    (c.isUnilateralConstraint = true ↔
      (c.isInequalityConstraint = true ∧
        (c.bLowerBound.length = 0 ∨ c.bUpperBound.length = 0)))
  ∧ (c.isBilateralConstraint = true ↔
      (c.isInequalityConstraint = true ∧
        c.bLowerBound.length ≠ 0 ∧ c.bUpperBound.length ≠ 0)) := by
  constructor
  · simp [Constraint.isUnilateralConstraint]
  · cases hi : c.isInequalityConstraint <;>
      simp [Constraint.isBilateralConstraint,
        Constraint.isUnilateralConstraint, hi]

/-- Claim C6: `updateBounds` fails and leaves the state unchanged
whenever either new size differs from the corresponding stored
box-bound size; under the data-model invariant
`_l.size() == _u.size()` it otherwise replaces `_l,_u` in place and
succeeds; and on every path it leaves the underlying problem object and
every other stored field untouched. -/
theorem updateBounds_spec (s : QPOasesProblem) (l u : Vec)
    (hinv : s.l.length = s.u.length) :
    ((l.length ≠ s.l.length ∨ u.length ≠ s.u.length) →
        updateBounds s l u = (false, s))
  ∧ (l.length = s.l.length → u.length = s.u.length →
        updateBounds s l u = (true, { s with l := l, u := u }))
  ∧ ((updateBounds s l u).2.problem = s.problem ∧
     (updateBounds s l u).2.H = s.H ∧ (updateBounds s l u).2.g = s.g ∧
     (updateBounds s l u).2.A = s.A ∧ (updateBounds s l u).2.lA = s.lA ∧
     (updateBounds s l u).2.uA = s.uA ∧
     (updateBounds s l u).2.solution = s.solution ∧
     (updateBounds s l u).2.dual_solution = s.dual_solution) := by
  unfold updateBounds
  refine ⟨?_, ?_, ?_⟩
  · rintro (h | h) <;> split_ifs <;> simp_all
  · intro h1 h2
    split_ifs with g1 g2 g3 <;> simp_all
  · split_ifs <;> simp

/-- Claim C6 (witness). -/
theorem updateBounds_spec_witness :
    sampleState.l.length = sampleState.u.length ∧
    updateBounds sampleState [0, 0] [2, 2] =
      (true, { sampleState with l := [0, 0], u := [2, 2] }) :=
  ⟨by decide,
   (updateBounds_spec sampleState [0, 0] [2, 2] (by decide)).2.1
     (by decide) (by decide)⟩

/-- Claim C5: `updateProblem` applies `updateBounds`, then
`updateConstraints`, then `updateTask`, in that fixed order,
short-circuiting on the first failure (later updates are not invoked:
the result state is exactly the state left by the earlier attempts),
and it returns success iff all three sub-updates succeed. -/
theorem updateProblem_order_spec (s : QPOasesProblem)
    (extC extT : InitExt) (H : Mat) (g : Vec) (A : Mat) (lA uA l u : Vec) :
    ((updateBounds s l u).1 = false →
        updateProblem s extC extT H g A lA uA l u =
          (false, (updateBounds s l u).2))
  ∧ ((updateBounds s l u).1 = true →
      (updateConstraints (updateBounds s l u).2 extC A lA uA).1 = false →
        updateProblem s extC extT H g A lA uA l u =
          (false, (updateConstraints (updateBounds s l u).2 extC A lA uA).2))
  ∧ ((updateBounds s l u).1 = true →
      (updateConstraints (updateBounds s l u).2 extC A lA uA).1 = true →
        updateProblem s extC extT H g A lA uA l u =
          updateTask (updateConstraints (updateBounds s l u).2 extC A lA uA).2
            extT H g)
  ∧ ((updateProblem s extC extT H g A lA uA l u).1 = true ↔
      ((updateBounds s l u).1 = true ∧
       (updateConstraints (updateBounds s l u).2 extC A lA uA).1 = true ∧
       (updateTask (updateConstraints (updateBounds s l u).2 extC A lA uA).2
          extT H g).1 = true)) := by
  unfold updateProblem
  cases hb : (updateBounds s l u).1 <;>
    cases hc : (updateConstraints (updateBounds s l u).2 extC A lA uA).1 <;>
      simp [hb, hc]

/-- Claim C5 (witness): with undersized bounds, `updateBounds` fails and
`updateProblem` short-circuits, leaving the state as `updateBounds`
left it. -/
theorem updateProblem_order_spec_witness :
    (updateBounds sampleState [9] [9]).1 = false ∧
    updateProblem sampleState sampleInitExt sampleInitExt sampleState.H
        sampleState.g sampleState.A [0] [5] [9] [9] =
      (false, (updateBounds sampleState [9] [9]).2) :=
  ⟨by decide,
   (updateProblem_order_spec sampleState sampleInitExt sampleInitExt
      sampleState.H sampleState.g sampleState.A [0] [5] [9] [9]).1
     (by decide)⟩

/-- Claim C8: if two sub-tasks share the constraint handle `c` and each
also owns a distinct constraint (`d`, resp. `e`), the merged constraint
list of the two-task aggregate has exactly 3 entries and contains `c`
exactly once, in both sub-task list orders — deduplication compares
handles (reference identity), never structural equality. -/
theorem aggregated_dedup_spec (c d e : Nat) (t1 t2 : SubTask) (xs : Nat)
    (hcd : c ≠ d) (hce : c ≠ e) (hde : d ≠ e)
    (h1 : t1.ownConstraints = [c, d]) (h2 : t2.ownConstraints = [c, e]) :
    (Aggregated.getConstraints ⟨[t1, t2], xs, []⟩).length = 3
  ∧ (Aggregated.getConstraints ⟨[t1, t2], xs, []⟩).count c = 1
  ∧ (Aggregated.getConstraints ⟨[t2, t1], xs, []⟩).length = 3
  ∧ (Aggregated.getConstraints ⟨[t2, t1], xs, []⟩).count c = 1 := by
  have hdc := hde.symm
  have hcd2 := hcd.symm
  have hce2 := hce.symm
  simp [Aggregated.getConstraints, dedupAppend, h1, h2, hcd, hce, hde,
    hdc, hcd2, hce2, List.count_cons, List.count_nil]

/-- Claim C8 (witness). -/
theorem aggregated_dedup_spec_witness :
    (0 : Nat) ≠ 1 ∧ (0 : Nat) ≠ 2 ∧ (1 : Nat) ≠ 2 ∧
    sampleTask1.ownConstraints = [0, 1] ∧
    sampleTask2.ownConstraints = [0, 2] ∧
    ((Aggregated.getConstraints ⟨[sampleTask1, sampleTask2], 2, []⟩).length = 3
  ∧ (Aggregated.getConstraints ⟨[sampleTask1, sampleTask2], 2, []⟩).count 0 = 1
  ∧ (Aggregated.getConstraints ⟨[sampleTask2, sampleTask1], 2, []⟩).length = 3
  ∧ (Aggregated.getConstraints ⟨[sampleTask2, sampleTask1], 2, []⟩).count 0 = 1) :=
  ⟨by decide, by decide, by decide, by decide, by decide,
   aggregated_dedup_spec 0 1 2 sampleTask1 sampleTask2 2
     (by decide) (by decide) (by decide) (by decide) (by decide)⟩

/-- Claim C9: for two sub-tasks over the same variable size, the
aggregate's `A` is the vertical stack of the sub-task `A` matrices in
list order, and its `b` is the concatenation of the effective residuals
`lambda_i * b_i` in the same order. -/
theorem aggregated_stack_spec (t1 t2 : SubTask) (xs : Nat) (own : List Nat)
    (h1 : t1.A.c = xs) (_h2 : t2.A.c = xs) :
    Aggregated.getA ⟨[t1, t2], xs, own⟩ = vstack t1.A t2.A
  ∧ Aggregated.getb ⟨[t1, t2], xs, own⟩ =
      t1.b.map (fun x => t1.lambda * x) ++ t2.b.map (fun x => t2.lambda * x) := by
  constructor
  · simp [Aggregated.getA, vstack, h1, Nat.add_assoc]
  · simp [Aggregated.getb]

/-- Claim C9 (witness). -/
theorem aggregated_stack_spec_witness :
    sampleTask1.A.c = 2 ∧ sampleTask2.A.c = 2 ∧
    (Aggregated.getA ⟨[sampleTask1, sampleTask2], 2, []⟩ =
        vstack sampleTask1.A sampleTask2.A
  ∧ Aggregated.getb ⟨[sampleTask1, sampleTask2], 2, []⟩ =
      sampleTask1.b.map (fun x => sampleTask1.lambda * x) ++
        sampleTask2.b.map (fun x => sampleTask2.lambda * x)) :=
  ⟨by decide, by decide,
   aggregated_stack_spec sampleTask1 sampleTask2 2 []
     (by decide) (by decide)⟩
